import Mathlib

/-
Verification of the purchase-tracker application core (src/script.js).

The development shallowly embeds the aggregation, rollup, cart and
persistence-boundary logic of the script. JavaScript strings are modelled
as Lean strings compared character-wise (jsStrLe), JavaScript Date values
are modelled by their day count since the Unix epoch (1970-01-01, a
Thursday) under UTC semantics, and JavaScript numbers that can be NaN are
modelled as Option Int with none standing for NaN. Fallible store reads
are modelled with Except.
-/

/- Character-wise comparison of strings, the semantics JavaScript gives
to expressions such as p.date >= from on ISO date strings. -/
def charListLe : List Char → List Char → Bool
  | [], _ => true
  | _ :: _, [] => false
  | a :: as, b :: bs => if a = b then charListLe as bs else decide (a < b)

def jsStrLe (a b : String) : Bool := charListLe a.data b.data

def isJsSpace (c : Char) : Bool := c = ' ' || c = '\t' || c = '\n' || c = '\r'

/- JavaScript String.trim on both ends. -/
def jsTrim (s : String) : String :=
  ⟨((s.data.dropWhile isJsSpace).reverse.dropWhile isJsSpace).reverse⟩

/- JavaScript String.slice(0, n). -/
def jsSlice (n : Nat) (s : String) : String := ⟨s.data.take n⟩

/- Day-of-week of an epoch-day number, as JavaScript Date.getDay:
0 is Sunday, 1 is Monday, ..., 6 is Saturday. Day 0 (1970-01-01) was a
Thursday, hence the +4 offset. -/
def jsGetDay (n : Int) : Int := (n + 4) % 7

/- weekStart from script.js lines 24-30: move the date by
(day === 0 ? -6 : 1) - day days. -/
def weekStartNum (n : Int) : Int :=
  n + ((if jsGetDay n = 0 then -6 else 1) - jsGetDay n)

/- weekEnd from script.js lines 31-35: weekStart plus six days. -/
def weekEndNum (n : Int) : Int := weekStartNum n + 6

/- Gregorian calendar conversions between (year, month, day) triples and
epoch-day numbers; used to embed the Date/toISOString round trips the
script performs on its ISO date strings. -/
def daysFromCivil (y m d : Int) : Int :=
  let yy := if m ≤ 2 then y - 1 else y
  let era := (if 0 ≤ yy then yy else yy - 399) / 400
  let yoe := yy - era * 400
  let doy := (153 * (m + (if 2 < m then -3 else 9)) + 2) / 5 + d - 1
  let doe := yoe * 365 + yoe / 4 - yoe / 100 + doy
  era * 146097 + doe - 719468

def civilFromDays (z0 : Int) : Int × Int × Int :=
  let z := z0 + 719468
  let era := (if 0 ≤ z then z else z - 146096) / 146097
  let doe := z - era * 146097
  let yoe := (doe - doe / 1460 + doe / 36524 - doe / 146096) / 365
  let y := yoe + era * 400
  let doy := doe - (365 * yoe + yoe / 4 - yoe / 100)
  let mp := (5 * doy + 2) / 153
  let d := doy - (153 * mp + 2) / 5 + 1
  let m := mp + (if mp < 10 then 3 else -9)
  (if m ≤ 2 then y + 1 else y, m, d)

def pad2 (n : Nat) : String := if n < 10 then "0" ++ toString n else toString n

def pad3 (n : Nat) : String :=
  if n < 10 then "00" ++ toString n
  else if n < 100 then "0" ++ toString n
  else toString n

def pad4 (n : Nat) : String :=
  if n < 10 then "000" ++ toString n
  else if n < 100 then "00" ++ toString n
  else if n < 1000 then "0" ++ toString n
  else toString n

/- Render a civil date the way Date.toISOString().slice(0,10) does. -/
def formatCivil (c : Int × Int × Int) : String :=
  pad4 c.1.toNat ++ "-" ++ pad2 c.2.1.toNat ++ "-" ++ pad2 c.2.2.toNat

def digitVal (c : Char) : Nat := c.toNat - 48

/- Parse a YYYY-MM-DD string into a civil date. -/
def parseISODate (s : String) : Option (Int × Int × Int) :=
  match s.data with
  | [y1, y2, y3, y4, '-', m1, m2, '-', d1, d2] =>
    if y1.isDigit && y2.isDigit && y3.isDigit && y4.isDigit &&
        m1.isDigit && m2.isDigit && d1.isDigit && d2.isDigit then
      some (Int.ofNat (digitVal y1 * 1000 + digitVal y2 * 100 + digitVal y3 * 10 + digitVal y4),
            Int.ofNat (digitVal m1 * 10 + digitVal m2),
            Int.ofNat (digitVal d1 * 10 + digitVal d2))
    else none
  | _ => none

/- Epoch-day number of an ISO date string, the new Date(d) step. -/
def dateNumOf (s : String) : Option Int :=
  (parseISODate s).map fun c => daysFromCivil c.1 c.2.1 c.2.2

/- weekStart on ISO date strings, composing parse, shift and render as
the script does. -/
def weekStartStr (s : String) : String :=
  match dateNumOf s with
  | some n => formatCivil (civilFromDays (weekStartNum n))
  | none => "Invalid Date"

def weekEndStr (s : String) : String :=
  match dateNumOf s with
  | some n => formatCivil (civilFromDays (weekEndNum n))
  | none => "Invalid Date"

/- Date.toISOString on a millisecond timestamp. -/
def msToISOString (ms : Int) : String :=
  let day := Int.fdiv ms 86400000
  let rem := (ms - day * 86400000).toNat
  formatCivil (civilFromDays day) ++ "T" ++
    pad2 (rem / 3600000) ++ ":" ++ pad2 (rem % 3600000 / 60000) ++ ":" ++
    pad2 (rem % 60000 / 1000) ++ "." ++ pad3 (rem % 1000) ++ "Z"

/- Domain model (spec section 3), as stored in the purchases collection.
billedAt is absent (none) until the billing commit sets it. -/
structure PurchaseItem where
  itemId : String
  name : String
  price : Nat
  qty : Nat
deriving DecidableEq

structure Purchase where
  id : String
  sellerId : String
  sellerName : String
  date : String
  items : List PurchaseItem
  billed : Bool
  billedAt : Option String
deriving DecidableEq

structure Item where
  itemId : String
  name : String
  price : Nat
  code : String
  photo : String
deriving DecidableEq

structure Seller where
  id : String
  name : String
  contact : String
  items : List Item
deriving DecidableEq

/- Unbucketed value of one purchase: the sum of qty * price over its
lines, the reduce the script performs in several places. -/
def purchaseTotal (p : Purchase) : Nat :=
  (p.items.map fun it => it.qty * it.price).sum

/- Step 1 of generateBill (script.js line 718): keep unbilled purchases
whose date lies in the inclusive range, compared as strings. -/
def billFilter (fromD toD : String) (ps : List Purchase) : List Purchase :=
  ps.filter fun p => !p.billed && jsStrLe fromD p.date && jsStrLe p.date toD

/- JavaScript object used as a keyed map with insertion order: reading
m[k] falls back to a default on a missing key, the entry is updated in
place, and a fresh key is appended at the end. -/
def upsert {α : Type} (k : String) (d : α) (g : α → α) :
    List (String × α) → List (String × α)
  | [] => [(k, g d)]
  | e :: t => if e.1 = k then (e.1, g e.2) :: t else e :: upsert k d g t

def sumValues {α : Type} (f : α → Nat) : List (String × α) → Nat
  | [] => 0
  | e :: t => f e.2 + sumValues f t

/- Nested bill structure built by generateBill lines 725-733. -/
structure BillLine where
  date : String
  qty : Nat
  amount : Nat
deriving DecidableEq

structure BillItem where
  name : String
  price : Nat
  lines : List BillLine
deriving DecidableEq

structure BillSeller where
  sellerName : String
  items : List (String × BillItem)
deriving DecidableEq

/- Push one purchase line into the per-seller item map, keyed by itemId. -/
def pushItem (date : String) (g : BillSeller) (it : PurchaseItem) : BillSeller :=
  { g with
    items := upsert it.itemId { name := it.name, price := it.price, lines := [] }
      (fun bi => { bi with
        lines := bi.lines ++ [{ date := date, qty := it.qty, amount := it.qty * it.price }] })
      g.items }

/- Fold one purchase into the bySeller map, keyed by sellerId. -/
def addPurchase (acc : List (String × BillSeller)) (p : Purchase) :
    List (String × BillSeller) :=
  upsert p.sellerId { sellerName := p.sellerName, items := [] }
    (fun g => p.items.foldl (pushItem p.date) g) acc

def bySeller (ps : List Purchase) : List (String × BillSeller) :=
  ps.foldl addPurchase []

/- Amount of one bill item, renderBillHTML line 753. -/
def itemAmount (bi : BillItem) : Nat := (bi.lines.map BillLine.amount).sum

/- Seller total and grand total accumulated by renderBillHTML. -/
def sellerTotal (g : BillSeller) : Nat := sumValues itemAmount g.items

def billGrandTotal (bs : List (String × BillSeller)) : Nat := sumValues sellerTotal bs

/- Outcome of one generateBill invocation: the bill structure opened in
the modal (none when the engine bails out), the new value of the
process-wide lastGeneratedBillIds slot, and the alert raised, if any. -/
structure GenBillResult where
  bill : Option (List (String × BillSeller))
  lastGeneratedBillIds : List String
  alertMsg : Option String
deriving DecidableEq

def generateBill (fromD toD : String) (purchases : List Purchase)
    (lastIds : List String) : GenBillResult :=
  if (billFilter fromD toD purchases).isEmpty then
    { bill := none, lastGeneratedBillIds := lastIds,
      alertMsg := some "No unbilled purchases in range" }
  else
    { bill := some (bySeller (billFilter fromD toD purchases)),
      lastGeneratedBillIds := (billFilter fromD toD purchases).map Purchase.id,
      alertMsg := none }

/- One updateData call of the markAsBilled loop (script.js lines 807-811):
merge billed/billedAt into the document with the given identifier. -/
def updateBilled (now : String) (ps : List Purchase) (pid : String) : List Purchase :=
  ps.map fun p => if p.id = pid then { p with billed := true, billedAt := some now } else p

/- The sequential commit loop over the identifier list. -/
def markAsBilled (ids : List String) (now : String) (ps : List Purchase) : List Purchase :=
  ids.foldl (updateBilled now) ps

/- Period rollup (renderPurchaseTable lines 850-874): one bucket map
accumulation step, m[key] = (m[key] || 0) + amount. -/
def bucketAdd (key : String) (amt : Nat) (m : List (String × Nat)) :
    List (String × Nat) :=
  upsert key 0 (fun v => v + amt) m

def bucketFoldKey (key : Purchase → String) (all : List Purchase) :
    List (String × Nat) :=
  all.foldl (fun m p => bucketAdd (key p) (purchaseTotal p) m) []

def bucketByWeek (all : List Purchase) : List (String × Nat) :=
  bucketFoldKey (fun p => weekStartStr p.date ++ "—" ++ weekEndStr p.date) all

def bucketByMonth (all : List Purchase) : List (String × Nat) :=
  bucketFoldKey (fun p => jsSlice 7 p.date) all

/- Cart engine. parseInt(val, 10) with JavaScript semantics: skip leading
whitespace, optional sign, then the longest run of decimal digits; none
models the NaN produced when no digit is read. -/
def leadingDigits : List Char → List Char
  | [] => []
  | c :: t => if c.isDigit then c :: leadingDigits t else []

def digitsToNat (cs : List Char) : Nat :=
  cs.foldl (fun a c => a * 10 + digitVal c) 0

def jsParseInt (s : String) : Option Int :=
  match s.data.dropWhile isJsSpace with
  | '-' :: t =>
    match leadingDigits t with
    | [] => none
    | ds => some (-(digitsToNat ds : Int))
  | '+' :: t =>
    match leadingDigits t with
    | [] => none
    | ds => some ((digitsToNat ds : Int))
  | cs =>
    match leadingDigits cs with
    | [] => none
    | ds => some ((digitsToNat ds : Int))

/- setQty (script.js lines 623-627): Math.max(0, parseInt(val || 0, 10)).
An empty value falls back to 0 before parsing; Math.max propagates NaN,
so an unparseable non-empty value stores NaN (none). The stored quantity
does not depend on the itemId key under which it is stored. -/
def setQty (val : String) : Option Int :=
  match (if val = "" then some 0 else jsParseInt val) with
  | some n => some (max 0 n)
  | none => none

/- savePurchase (script.js lines 656-699). The pending cart is the map
from itemId to quantity; a quantity is Option Int since setQty can store
NaN. Entries must have q > 0 and a matching item in the seller catalog. -/
def cartQtyPos (q : Option Int) : Bool :=
  match q with
  | some n => decide (0 < n)
  | none => false

def cartLines (sellerItems : List Item) (cart : List (String × Option Int)) :
    List PurchaseItem :=
  (cart.filter fun e => cartQtyPos e.2).filterMap fun e =>
    match sellerItems.find? (fun i => i.itemId == e.1), e.2 with
    | some it, some q =>
      some { itemId := e.1, name := it.name, price := it.price, qty := q.toNat }
    | _, _ => none

/- Payload persisted by setData for the purchases collection; the store
assigns the identifier, so the outgoing record carries none. -/
structure NewPurchase where
  sellerId : String
  sellerName : String
  date : String
  items : List PurchaseItem
  billed : Bool
  createdAt : String
deriving DecidableEq

def savePurchase (seller : Seller) (cart : List (String × Option Int))
    (date now : String) : Option NewPurchase :=
  if (cartLines seller.items cart).isEmpty then none
  else some { sellerId := seller.id, sellerName := seller.name, date := date,
              items := cartLines seller.items cart, billed := false, createdAt := now }

/- JavaScript values crossing the store boundary, for the
sanitizeForFirestore pass (script.js lines 91-112). A Date carries its
millisecond timestamp. Arrays and objects are separate mutual sorts so
that recursion and induction stay structural. -/
mutual
inductive JsVal where
  | null : JsVal
  | undef : JsVal
  | bool (b : Bool) : JsVal
  | num (n : Int) : JsVal
  | str (s : String) : JsVal
  | date (ms : Int) : JsVal
  | arr (elems : JsList) : JsVal
  | obj (fields : JsFields) : JsVal
inductive JsList where
  | nil : JsList
  | cons (head : JsVal) (tail : JsList) : JsList
inductive JsFields where
  | nil : JsFields
  | cons (key : String) (val : JsVal) (tail : JsFields) : JsFields
end

mutual
def sanitizeForFirestore : JsVal → JsVal
  | .null => .null
  | .undef => .null
  | .bool b => .bool b
  | .num n => .num n
  | .str s => .str s
  | .date ms => .str (msToISOString ms)
  | .arr l => .arr (sanitizeList l)
  | .obj fs => .obj (sanitizeFields fs)
def sanitizeList : JsList → JsList
  | .nil => .nil
  | .cons h t => .cons (sanitizeForFirestore h) (sanitizeList t)
def sanitizeFields : JsFields → JsFields
  | .nil => .nil
  | .cons k v t =>
    if k = "id" then sanitizeFields t
    else .cons k (sanitizeForFirestore v) (sanitizeFields t)
end

/- No field literally named id occurs at any depth. -/
mutual
def idFreeVal : JsVal → Bool
  | .arr l => idFreeList l
  | .obj fs => idFreeFields fs
  | _ => true
def idFreeList : JsList → Bool
  | .nil => true
  | .cons h t => idFreeVal h && idFreeList t
def idFreeFields : JsFields → Bool
  | .nil => true
  | .cons k v t => !(k == "id") && idFreeVal v && idFreeFields t
end

/- No Date value remains at any depth. -/
mutual
def dateFreeVal : JsVal → Bool
  | .date _ => false
  | .arr l => dateFreeList l
  | .obj fs => dateFreeFields fs
  | _ => true
def dateFreeList : JsList → Bool
  | .nil => true
  | .cons h t => dateFreeVal h && dateFreeList t
def dateFreeFields : JsFields → Bool
  | .nil => true
  | .cons _ v t => dateFreeVal v && dateFreeFields t
end

def jsLen : JsList → Nat
  | .nil => 0
  | .cons _ t => jsLen t + 1

/- Seller edit path, handleSellerSubmit lines 369-402. Each item row of
the modal holds a possibly picked file (modelled by the processed photo
data it would yield), the retained existing photo data, and the three
text inputs. openSellerModal prefills rows from the seller items without
carrying their itemId; on submit every kept row receives a fresh
crypto.randomUUID value, drawn here from an explicit supply of fresh
identifiers. -/
structure ItemRowState where
  file : Option String
  existingPhoto : String
  name : String
  price : Nat
  code : String
deriving DecidableEq

def itemRowOfItem (it : Item) : ItemRowState :=
  { file := none, existingPhoto := it.photo, name := it.name,
    price := it.price, code := it.code }

def rowPhoto (r : ItemRowState) : String :=
  match r.file with
  | some processed => processed
  | none => r.existingPhoto

def buildItems (uuids : List String) (rows : List ItemRowState) : List Item :=
  match rows with
  | [] => []
  | r :: rs =>
    if jsTrim r.name = "" then buildItems uuids rs
    else
      match uuids with
      | [] => []
      | u :: us =>
        { itemId := u, name := jsTrim r.name, price := r.price,
          code := jsTrim r.code, photo := rowPhoto r } :: buildItems us rs

/- getData (script.js lines 47-55): map the snapshot documents to records
carrying their store identifier, and swallow any read failure into the
empty list. -/
def getData {δ ρ : Type} (mk : String → δ → ρ)
    (res : Except String (List (String × δ))) : List ρ :=
  match res with
  | .ok docs => docs.map fun e => mk e.1 e.2
  | .error _ => []

/- Fields of a purchases document without its identifier, and the record
constructor getData applies to a snapshot entry. -/
structure PurchaseDoc where
  sellerId : String
  sellerName : String
  date : String
  items : List PurchaseItem
  billed : Bool
  billedAt : Option String
deriving DecidableEq

def purchaseOfDoc (docId : String) (d : PurchaseDoc) : Purchase :=
  { id := docId, sellerId := d.sellerId, sellerName := d.sellerName,
    date := d.date, items := d.items, billed := d.billed, billedAt := d.billedAt }

/- Concrete data used by the evaluation theorems: the worked example of
spec section 8 and a one-item demo seller. -/
def billDemo : List Purchase :=
  [{ id := "p1", sellerId := "s1", sellerName := "Seller A", date := "2024-01-02",
     items := [{ itemId := "x", name := "Item 1", price := 100, qty := 3 }],
     billed := false, billedAt := none },
   { id := "p2", sellerId := "s1", sellerName := "Seller A", date := "2024-01-09",
     items := [{ itemId := "x", name := "Item 1", price := 100, qty := 2 }],
     billed := false, billedAt := none }]

def demoSeller : Seller :=
  { id := "s1", name := "Seller A", contact := "",
    items := [{ itemId := "x", name := "Item 1", price := 110, code := "A-1", photo := "" }] }

/- Helper lemmas. -/

theorem sumValues_upsert {α : Type} (f : α → Nat) (k : String) (d : α) (g : α → α)
    (a : Nat) (l : List (String × α)) (hd : f d = 0) (hg : ∀ x, f (g x) = f x + a) :
    sumValues f (upsert k d g l) = sumValues f l + a := by
  induction l with
  | nil => simp [upsert, sumValues, hg d, hd]
  | cons e t ih =>
    by_cases he : e.1 = k
    · simp [upsert, he, sumValues, hg e.2]
      omega
    · simp [upsert, he, sumValues, ih]
      omega

theorem sumValues_bucketAdd (k : String) (a : Nat) (m : List (String × Nat)) :
    sumValues id (bucketAdd k a m) = sumValues id m + a :=
  sumValues_upsert id k 0 (fun v => v + a) a m rfl (fun _ => rfl)

theorem bucketFold_total (key : Purchase → String) (ps : List Purchase)
    (init : List (String × Nat)) :
    sumValues id (List.foldl (fun m p => bucketAdd (key p) (purchaseTotal p) m) init ps) =
      sumValues id init + (ps.map purchaseTotal).sum := by
  induction ps generalizing init with
  | nil => simp
  | cons p t ih =>
    simp only [List.foldl_cons, List.map_cons, List.sum_cons]
    rw [ih, sumValues_bucketAdd]
    omega

theorem itemAmount_pushLine (bi : BillItem) (l : BillLine) :
    itemAmount { bi with lines := bi.lines ++ [l] } = itemAmount bi + l.amount := by
  simp [itemAmount]

theorem sellerTotal_pushItem (date : String) (g : BillSeller) (it : PurchaseItem) :
    sellerTotal (pushItem date g it) = sellerTotal g + it.qty * it.price := by
  unfold pushItem sellerTotal
  exact sumValues_upsert itemAmount it.itemId _ _ _ g.items rfl
    (fun bi => itemAmount_pushLine bi _)

theorem sellerTotal_foldl (date : String) (its : List PurchaseItem) (g : BillSeller) :
    sellerTotal (its.foldl (pushItem date) g) =
      sellerTotal g + (its.map fun it => it.qty * it.price).sum := by
  induction its generalizing g with
  | nil => simp
  | cons it t ih =>
    simp only [List.foldl_cons, List.map_cons, List.sum_cons]
    rw [ih, sellerTotal_pushItem]
    omega

theorem billGrandTotal_addPurchase (acc : List (String × BillSeller)) (p : Purchase) :
    billGrandTotal (addPurchase acc p) = billGrandTotal acc + purchaseTotal p := by
  unfold addPurchase billGrandTotal
  exact sumValues_upsert sellerTotal p.sellerId _ _ _ acc rfl
    (fun g => sellerTotal_foldl p.date p.items g)

theorem billGrandTotal_foldl (ps : List Purchase) (acc : List (String × BillSeller)) :
    billGrandTotal (ps.foldl addPurchase acc) =
      billGrandTotal acc + (ps.map purchaseTotal).sum := by
  induction ps generalizing acc with
  | nil => simp
  | cons p t ih =>
    simp only [List.foldl_cons, List.map_cons, List.sum_cons]
    rw [ih, billGrandTotal_addPurchase]
    omega

theorem billGrandTotal_bySeller (ps : List Purchase) :
    billGrandTotal (bySeller ps) = (ps.map purchaseTotal).sum := by
  unfold bySeller
  rw [billGrandTotal_foldl]
  simp [billGrandTotal, sumValues]

theorem markAsBilled_eq_map (ids : List String) (now : String) (ps : List Purchase) :
    markAsBilled ids now ps =
      ps.map fun p =>
        if p.id ∈ ids then { p with billed := true, billedAt := some now } else p := by
  induction ids generalizing ps with
  | nil => simp [markAsBilled]
  | cons i rest ih =>
    show markAsBilled rest now (updateBilled now ps i) = _
    rw [ih]
    unfold updateBilled
    rw [List.map_map]
    refine List.map_congr_left fun p _ => ?_
    by_cases hpi : p.id = i
    · by_cases hr : p.id ∈ rest <;>
        simp [Function.comp, hpi, hr, List.mem_cons]
    · by_cases hr : p.id ∈ rest <;>
        simp [Function.comp, hpi, hr, List.mem_cons]

/-- Claim C1: for every purchase set P and date range, the grand total of
the bill generated by generateBill equals the sum, over every purchase p
in P with p.billed false and fromD <= p.date <= toD under string
comparison of ISO dates, of the sum over the lines of p.items of
qty * price. -/
theorem generateBill_grandTotal (purchases : List Purchase) (fromD toD : String)
    (lastIds : List String) (bs : List (String × BillSeller))
    (h : (generateBill fromD toD purchases lastIds).bill = some bs) :
    billGrandTotal bs =
      ((purchases.filter fun p =>
          !p.billed && jsStrLe fromD p.date && jsStrLe p.date toD).map
        purchaseTotal).sum := by
  unfold generateBill at h
  split at h
  · simp at h
  · simp only [Option.some.injEq] at h
    rw [← h, billGrandTotal_bySeller, billFilter]

/-- Witness for C1 at the worked example of spec section 8: two unbilled
purchases of item x at price 100, quantities 3 and 2, in January 2024;
the generated bill carries grand total 500. -/
theorem generateBill_grandTotal_witness :
    billGrandTotal (bySeller (billFilter "2024-01-01" "2024-01-31" billDemo)) = 500 := by
  have h := generateBill_grandTotal billDemo "2024-01-01" "2024-01-31" []
    (bySeller (billFilter "2024-01-01" "2024-01-31" billDemo)) (by rfl)
  rw [h]
  decide

/-- Claim C2: after a successful markAsBilled over an identifier list,
every purchase whose identifier is in that list is billed with billedAt
set, and a subsequent billing run over any range excludes all of them
from its filtered set. -/
theorem markAsBilled_marks_and_excludes (ids : List String) (now : String)
    (ps : List Purchase) (fromD toD : String) :
    (∀ p ∈ markAsBilled ids now ps, p.id ∈ ids →
      p.billed = true ∧ p.billedAt = some now) ∧
    (∀ p ∈ billFilter fromD toD (markAsBilled ids now ps), p.id ∉ ids) := by
  have key : ∀ p ∈ markAsBilled ids now ps, p.id ∈ ids →
      p.billed = true ∧ p.billedAt = some now := by
    intro p hp hid
    rw [markAsBilled_eq_map] at hp
    rcases List.mem_map.mp hp with ⟨q, _, rfl⟩
    by_cases h : q.id ∈ ids
    · simp [h]
    · simp [h] at hid
  refine ⟨key, ?_⟩
  intro p hp hid
  rcases List.mem_filter.mp hp with ⟨hmem, hpred⟩
  have hb := (key p hmem hid).1
  simp [hb] at hpred

/-- Witness for C2: committing identifier list [p1] over a one-purchase
store yields a billed purchase with billedAt set. -/
theorem markAsBilled_marks_and_excludes_witness :
    (Purchase.mk "p1" "s1" "Seller A" "2024-01-05"
      [PurchaseItem.mk "x" "Item 1" 100 2] true (some "2024-02-01T00:00:00.000Z")).billed
        = true ∧
    (Purchase.mk "p1" "s1" "Seller A" "2024-01-05"
      [PurchaseItem.mk "x" "Item 1" 100 2] true (some "2024-02-01T00:00:00.000Z")).billedAt
        = some "2024-02-01T00:00:00.000Z" :=
  (markAsBilled_marks_and_excludes ["p1"] "2024-02-01T00:00:00.000Z"
      [Purchase.mk "p1" "s1" "Seller A" "2024-01-05"
        [PurchaseItem.mk "x" "Item 1" 100 2] false none]
      "2024-01-01" "2024-01-31").1
    (Purchase.mk "p1" "s1" "Seller A" "2024-01-05"
      [PurchaseItem.mk "x" "Item 1" 100 2] true (some "2024-02-01T00:00:00.000Z"))
    (by decide) (by decide)

/-- Claim C3: for every date d (as an epoch-day number), weekStart
returns the Monday of the Monday-based week containing d, and weekEnd is
weekStart plus six days. -/
theorem weekStart_monday_weekEnd_six (d : Int) :
    jsGetDay (weekStartNum d) = 1 ∧ weekStartNum d ≤ d ∧
      d ≤ weekStartNum d + 6 ∧ weekEndNum d = weekStartNum d + 6 := by
  unfold weekEndNum weekStartNum jsGetDay
  split_ifs <;> omega

/-- Counterexample for C4: at the unparseable non-empty input "abc", the
stored quantity is NaN (modelled none), not the 0 the claim requires, so
setQty does not store a non-negative integer for every input value. -/
theorem setQty_invalid_counterexample :
    setQty "abc" = none ∧ setQty "abc" ≠ some 0 := by
  decide

/-- Claim C4 (amended): setQty stores the value parsed as an integer with
negative results floored to 0; an empty value stores 0 via the value||0
fallback; but a non-empty unparseable value stores NaN rather than 0,
because Math.max(0, NaN) is NaN. The stored quantity is independent of
the itemId key. -/
theorem setQty_amended (val : String) (n : Int) :
    (val = "" → setQty val = some 0) ∧
    (jsParseInt val = some n → setQty val = some (max 0 n) ∧ 0 ≤ max 0 n) ∧
    (val ≠ "" → jsParseInt val = none → setQty val = none) := by
  refine ⟨?_, ?_, ?_⟩
  · intro h
    subst h
    rfl
  · intro h
    by_cases hv : val = ""
    · subst hv
      rw [show jsParseInt "" = none from rfl] at h
      exact Option.noConfusion h
    · constructor
      · simp [setQty, hv, h]
      · exact Int.le_max_left 0 n
  · intro hv hn
    simp [setQty, hv, hn]

/-- Witness for C4 (amended) at the three concrete inputs "", "-5" and
"abc ": the empty value stores 0, a negative value is floored to 0, and
an unparseable value stores NaN. -/
theorem setQty_amended_witness :
    setQty "" = some 0 ∧
    (setQty "-5" = some (max 0 (-5)) ∧ 0 ≤ max 0 (-5 : Int)) ∧
    setQty "abc " = none :=
  ⟨(setQty_amended "" 0).1 rfl,
   (setQty_amended "-5" (-5)).2.1 (by decide),
   (setQty_amended "abc " 0).2.2 (by decide) (by decide)⟩

/-- Claim C5: for every purchase set, the sum of all bucket values of
bucketByWeek, the sum of all bucket values of bucketByMonth, and the
unbucketed sum of qty * price over all items of all purchases agree. -/
theorem bucket_totals_match (all : List Purchase) :
    sumValues id (bucketByWeek all) = sumValues id (bucketByMonth all) ∧
    sumValues id (bucketByWeek all) = (all.map purchaseTotal).sum ∧
    sumValues id (bucketByMonth all) = (all.map purchaseTotal).sum := by
  have hweek : sumValues id (bucketByWeek all) = (all.map purchaseTotal).sum := by
    have hw := bucketFold_total
      (fun p => weekStartStr p.date ++ "—" ++ weekEndStr p.date) all []
    simpa [bucketByWeek, bucketFoldKey, sumValues] using hw
  have hmonth : sumValues id (bucketByMonth all) = (all.map purchaseTotal).sum := by
    have hm := bucketFold_total (fun p => jsSlice 7 p.date) all []
    simpa [bucketByMonth, bucketFoldKey, sumValues] using hm
  exact ⟨hweek.trans hmonth.symm, hweek, hmonth⟩

/-- Claim C6: when the filtered set is empty, generateBill raises the
no-unbilled-purchases alert, builds no bill structure, and leaves the
stored lastGeneratedBillIds slot unchanged. -/
theorem generateBill_emptyRange_noop (fromD toD : String) (purchases : List Purchase)
    (lastIds : List String) (h : billFilter fromD toD purchases = []) :
    generateBill fromD toD purchases lastIds =
      { bill := none, lastGeneratedBillIds := lastIds,
        alertMsg := some "No unbilled purchases in range" } := by
  unfold generateBill
  rw [h]
  rfl

/-- Witness for C6: a store holding one already billed purchase yields an
empty filtered set, and generateBill keeps the previous identifier list. -/
theorem generateBill_emptyRange_noop_witness :
    generateBill "2024-01-01" "2024-01-31"
      [Purchase.mk "p1" "s1" "Seller A" "2024-01-05"
        [PurchaseItem.mk "x" "Item 1" 110 2] true none] ["previous"] =
      { bill := none, lastGeneratedBillIds := ["previous"],
        alertMsg := some "No unbilled purchases in range" } :=
  generateBill_emptyRange_noop "2024-01-01" "2024-01-31"
    [Purchase.mk "p1" "s1" "Seller A" "2024-01-05"
      [PurchaseItem.mk "x" "Item 1" 110 2] true none] ["previous"] (by decide)

/-- Claim C7: every purchase record persisted by savePurchase has qty > 0
in every line of its items sequence, and a cart without any positive
quantity persists nothing. -/
theorem savePurchase_lines_positive (seller : Seller)
    (cart : List (String × Option Int)) (date now : String) :
    (∀ r, savePurchase seller cart date now = some r → ∀ it ∈ r.items, 0 < it.qty) ∧
    ((∀ e ∈ cart, cartQtyPos e.2 = false) → savePurchase seller cart date now = none) := by
  constructor
  · intro r hr it hit
    unfold savePurchase at hr
    split at hr
    · exact Option.noConfusion hr
    · simp only [Option.some.injEq] at hr
      subst hr
      replace hit : it ∈ cartLines seller.items cart := hit
      unfold cartLines at hit
      rcases List.mem_filterMap.mp hit with ⟨e, he, hfe⟩
      rcases List.mem_filter.mp he with ⟨-, hpos⟩
      rcases hq : e.2 with _ | q
      · rw [hq] at hpos
        exact absurd hpos (by simp [cartQtyPos])
      · rw [hq] at hfe hpos
        have hqpos : 0 < q := by simpa [cartQtyPos] using hpos
        rcases hf : seller.items.find? (fun i => i.itemId == e.1) with _ | itr
        · rw [hf] at hfe
          exact Option.noConfusion hfe
        · rw [hf] at hfe
          simp only [Option.some.injEq] at hfe
          subst hfe
          show 0 < q.toNat
          omega
  · intro hall
    have hnil : cart.filter (fun e => cartQtyPos e.2) = [] :=
      List.filter_eq_nil_iff.mpr fun e he => by simp [hall e he]
    unfold savePurchase cartLines
    rw [hnil]
    rfl

/-- Witness for C7: a cart line of quantity 3 for the demo seller is
persisted with positive qty, and a cart holding only a zero quantity and
a NaN quantity persists nothing. -/
theorem savePurchase_lines_positive_witness :
    (0 : Nat) < (PurchaseItem.mk "x" "Item 1" 110 3).qty ∧
    savePurchase demoSeller [("x", some 0), ("y", none)] "2024-01-02" "T0" = none :=
  ⟨(savePurchase_lines_positive demoSeller [("x", some 3)] "2024-01-02" "T0").1
      (NewPurchase.mk "s1" "Seller A" "2024-01-02"
        [PurchaseItem.mk "x" "Item 1" 110 3] false "T0")
      (by decide) (PurchaseItem.mk "x" "Item 1" 110 3) (by decide),
   (savePurchase_lines_positive demoSeller [("x", some 0), ("y", none)]
      "2024-01-02" "T0").2 (by decide)⟩

/- Sanitization preserves id-freeness and removes Date values, proved by
mutual structural recursion over the three JavaScript value sorts. -/
mutual
theorem idFreeVal_sanitize (v : JsVal) : idFreeVal (sanitizeForFirestore v) = true := by
  cases v
  case arr l =>
    simp only [sanitizeForFirestore, idFreeVal]
    exact idFreeList_sanitize l
  case obj fs =>
    simp only [sanitizeForFirestore, idFreeVal]
    exact idFreeFields_sanitize fs
  all_goals simp [sanitizeForFirestore, idFreeVal]
theorem idFreeList_sanitize (l : JsList) : idFreeList (sanitizeList l) = true := by
  cases l with
  | nil => rfl
  | cons h t =>
    simp [sanitizeList, idFreeList, idFreeVal_sanitize h, idFreeList_sanitize t]
theorem idFreeFields_sanitize (fs : JsFields) : idFreeFields (sanitizeFields fs) = true := by
  cases fs with
  | nil => rfl
  | cons k v t =>
    by_cases hk : k = "id"
    · simp only [sanitizeFields, if_pos hk]
      exact idFreeFields_sanitize t
    · simp only [sanitizeFields, if_neg hk, idFreeFields]
      simp [hk, idFreeVal_sanitize v, idFreeFields_sanitize t]
end

mutual
theorem dateFreeVal_sanitize (v : JsVal) : dateFreeVal (sanitizeForFirestore v) = true := by
  cases v
  case arr l =>
    simp only [sanitizeForFirestore, dateFreeVal]
    exact dateFreeList_sanitize l
  case obj fs =>
    simp only [sanitizeForFirestore, dateFreeVal]
    exact dateFreeFields_sanitize fs
  all_goals simp [sanitizeForFirestore, dateFreeVal]
theorem dateFreeList_sanitize (l : JsList) : dateFreeList (sanitizeList l) = true := by
  cases l with
  | nil => rfl
  | cons h t =>
    simp [sanitizeList, dateFreeList, dateFreeVal_sanitize h, dateFreeList_sanitize t]
theorem dateFreeFields_sanitize (fs : JsFields) :
    dateFreeFields (sanitizeFields fs) = true := by
  cases fs with
  | nil => rfl
  | cons k v t =>
    by_cases hk : k = "id"
    · simp only [sanitizeFields, if_pos hk]
      exact dateFreeFields_sanitize t
    · simp only [sanitizeFields, if_neg hk, dateFreeFields]
      simp [dateFreeVal_sanitize v, dateFreeFields_sanitize t]
end

theorem jsLen_sanitizeList (l : JsList) : jsLen (sanitizeList l) = jsLen l := by
  cases l with
  | nil => rfl
  | cons h t => simp [sanitizeList, jsLen, jsLen_sanitizeList t]

/-- Claim C8: the sanitization applied before each store write drops
every field literally named id at every nesting depth, converts Date
values to ISO-8601 strings, and leaves numbers, strings, booleans and
arrays otherwise unchanged (arrays keep their length, with elements
sanitized recursively). -/
theorem sanitizeForFirestore_spec (v : JsVal) (n : Int) (s : String) (b : Bool)
    (ms : Int) (l : JsList) :
    idFreeVal (sanitizeForFirestore v) = true ∧
    dateFreeVal (sanitizeForFirestore v) = true ∧
    sanitizeForFirestore (.num n) = .num n ∧
    sanitizeForFirestore (.str s) = .str s ∧
    sanitizeForFirestore (.bool b) = .bool b ∧
    sanitizeForFirestore (.date ms) = .str (msToISOString ms) ∧
    sanitizeForFirestore (.arr l) = .arr (sanitizeList l) ∧
    jsLen (sanitizeList l) = jsLen l :=
  ⟨idFreeVal_sanitize v, dateFreeVal_sanitize v,
   by simp [sanitizeForFirestore], by simp [sanitizeForFirestore],
   by simp [sanitizeForFirestore], by simp [sanitizeForFirestore],
   by simp [sanitizeForFirestore], jsLen_sanitizeList l⟩

/-- Claim C9 (code evaluation at the failing input): re-saving a seller
whose modal was prefilled from an existing item with itemId uuid-old-1
stores that item under the freshly generated uuid-new-1, so the itemId
assigned before the edit is not preserved. -/
theorem sellerEdit_regenerates_itemIds :
    (buildItems ["uuid-new-1"]
        [itemRowOfItem (Item.mk "uuid-old-1" "Item 1" 110 "A-1" "")]).map Item.itemId
      = ["uuid-new-1"] ∧
    ("uuid-new-1" : String) ≠ "uuid-old-1" := by
  decide

/-- Claim C10: for every collection and store-read failure, getData
returns the empty list, so a billing run over a failed purchases read
behaves exactly as one over an empty purchases collection. -/
theorem getData_error_as_empty {δ ρ : Type} (mk : String → δ → ρ) (e : String)
    (fromD toD : String) (lastIds : List String) :
    getData mk (Except.error e) = [] ∧
    getData mk (Except.error e) = getData mk (Except.ok []) ∧
    generateBill fromD toD (getData purchaseOfDoc (Except.error e)) lastIds =
      generateBill fromD toD (getData purchaseOfDoc (Except.ok [])) lastIds :=
  ⟨rfl, rfl, rfl⟩

/- Sanity checks of the calendar embedding against the worked example of
spec section 8: 2024-01-10 is a Wednesday whose week runs Monday
2024-01-08 to Sunday 2024-01-14. -/
theorem weekStartStr_example : weekStartStr "2024-01-10" = "2024-01-08" := by decide

theorem weekEndStr_example : weekEndStr "2024-01-10" = "2024-01-14" := by decide

theorem msToISOString_example :
    msToISOString 1704067200000 = "2024-01-01T00:00:00.000Z" := by decide
